import Mathlib

/-!
Verification of the ScanIt repository: a "blockchain explorer" list view
(`BlockchainExplorer`, src/unnamed/part_000) and a "report details" view
(`ReportDetails.tsx`).  The TypeScript components are shallowly embedded:
records and display blocks are structures, the fetch handlers are pure
functions from the fetch outcome and previous state to the new state plus
a list of emitted effects (console logs, toasts, navigation commands), and
`Math.random()` draws are explicit rational parameters in `[0, 1)`.
-/

namespace ScanIt

/-- The `VerificationData` row shape fetched from the `verifications` table
(fields as declared in both components). -/
structure VerificationData where
  id : String
  content : String
  is_ai_generated : Bool
  confidence : ℚ
  blockchain_hash : String
  created_at : String
  user_id : String
deriving Repr, DecidableEq

/-- The `Block` interface of the explorer view.  `status` in the source is the
union type of the literals; both values are kept. -/
inductive BlockStatus where
  | confirmed
  | pending
deriving Repr, DecidableEq

/-- The `Block` record of the explorer view. -/
structure Block where
  id : String
  hash : String
  timestamp : String
  verifier : String
  transactions : Nat
  status : BlockStatus
deriving Repr, DecidableEq

/-- The expression `String.fromCharCode(65 + (index % 3))` prefixed by the literal template:
the synthetic verifier label of `loadUserVerifications`. -/
def verifierLabel (index : Nat) : String :=
  "ScanIt Node " ++ String.mk [Char.ofNat (65 + index % 3)]

/-- The fixed 3-element verifier rotation the spec refers to. -/
def rotation : List String :=
  ["ScanIt Node A", "ScanIt Node B", "ScanIt Node C"]

/-- One step of the `(data || []).map((verification, index) => ...)` conversion
in `loadUserVerifications`.  `fabricate index` stands for the
`Math.random().toString(16).substring(2, 42)` digits used when
`blockchain_hash` is falsy (the empty string). -/
def toBlock (fabricate : Nat → String) (index : Nat) (v : VerificationData) : Block :=
  { id := v.id
    hash := if v.blockchain_hash = "" then "0x" ++ fabricate index else v.blockchain_hash
    timestamp := v.created_at
    verifier := verifierLabel index
    transactions := 1
    status := .confirmed }

/-- The full `blocks` array built by `loadUserVerifications` from the fetched
rows. -/
def loadedBlocks (fabricate : Nat → String) (data : List VerificationData) : List Block :=
  data.mapIdx (toBlock fabricate)

/-- Console-log events (`console.error`), with the error payload kept. -/
inductive LogEvent where
  | consoleError (msg : String) (payload : String)
deriving Repr, DecidableEq

/-- Local state of the `BlockchainExplorer` component. -/
structure ExplorerState where
  searchTerm : String
  selectedBlock : Option Block
  userBlocks : List Block
  loading : Bool
deriving Repr, DecidableEq

/-- The `useState` initial values of `BlockchainExplorer`. -/
def initExplorerState : ExplorerState :=
  { searchTerm := "", selectedBlock := none, userBlocks := [], loading := true }

/-- Outcome of the supabase list query: the `{ data, error }` pair, with
exactly one side populated. -/
inductive ListFetch where
  | ok (data : List VerificationData)
  | err (e : String)
deriving Repr, DecidableEq

/-- The `loadUserVerifications` handler: on error it logs and returns (the
`finally` still clears `loading`); on success it replaces `userBlocks`
wholesale with the converted list. -/
def loadUserVerifications (fabricate : Nat → String) (res : ListFetch)
    (s : ExplorerState) : ExplorerState × List LogEvent :=
  match res with
  | .err e =>
      ({ s with loading := false }, [.consoleError "Error loading verifications:" e])
  | .ok data =>
      ({ s with userBlocks := loadedBlocks fabricate data, loading := false }, [])

/-- The body of the explorer view, as the four mutually exclusive branches of
the JSX conditional chain (`loading ? … : !user ? … : length === 0 ? … : list`). -/
inductive ExplorerBody where
  | loadingCard
  | loginCard
  | emptyCard
  | blockList (blocks : List Block)
deriving Repr, DecidableEq

/-- The rendered body of `BlockchainExplorer` as a function of the auth user
and the component state.  The search term is part of the state but, as in the
source, is read only by the input widget, never by this chain. -/
def renderExplorer (user : Option String) (s : ExplorerState) : ExplorerBody :=
  if s.loading then .loadingCard
  else if user.isNone then .loginCard
  else if s.userBlocks.isEmpty then .emptyCard
  else .blockList s.userBlocks

/-! ### Report details view (`ReportDetails.tsx`) -/

/-- A toast fired through `useToast` (`variant: "destructive"` ↦ `destructive`). -/
structure Toast where
  title : String
  description : String
  destructive : Bool
deriving Repr, DecidableEq

/-- Local state of `ReportDetails` (`report`, `loading`). -/
structure DetailState where
  report : Option VerificationData
  loading : Bool
deriving Repr, DecidableEq

/-- The `useState` initial values of `ReportDetails`. -/
def initDetailState : DetailState := { report := none, loading := true }

/-- A supabase error value as returned in `{ data, error }`; `.single()`
reports an absent row (not found, or owned by another user and removed by the
`user_id` filter) through such an error value, with code `PGRST116`. -/
structure SupabaseError where
  code : String
  message : String
deriving Repr, DecidableEq

/-- The `.single()` zero-rows error: the shape supabase returns when the record
is absent or access to it is denied by the `user_id` equality filter. -/
def noRowsError : SupabaseError :=
  { code := "PGRST116", message := "JSON object requested, multiple (or no) rows returned" }

/-- Outcome of the `.single()` query in `loadReportDetails`. -/
inductive SingleFetch where
  | ok (row : VerificationData)
  | err (e : SupabaseError)
deriving Repr, DecidableEq

/-- Effects emitted by one run of `loadReportDetails`. -/
structure DetailEffects where
  logs : List LogEvent
  toasts : List Toast
  nav : Option String
deriving Repr, DecidableEq

/-- No effects. -/
def noEffects : DetailEffects := { logs := [], toasts := [], nav := none }

/-- The destructive toast fired on a failed load. -/
def failedToast : Toast :=
  { title := "Error", description := "Failed to load report details", destructive := true }

/-- The `loadReportDetails` handler: any error value is logged, toasted and
answered by `navigate('/reports')` before `finally` clears `loading`; a row
is stored via `setReport`. -/
def loadReportDetails (res : SingleFetch) (s : DetailState) :
    DetailState × DetailEffects :=
  match res with
  | .err e =>
      ({ s with loading := false },
       { logs := [.consoleError "Error loading report:" (e.code ++ " " ++ e.message)]
         toasts := [failedToast]
         nav := some "/reports" })
  | .ok row =>
      ({ s with report := some row, loading := false }, noEffects)

/-- The expression `Math.floor(Math.random() * 30) + 65`: the DetectGPT widget value, from a
draw `r ∈ [0, 1)`. -/
def detectGPTScore (r : ℚ) : ℤ := ⌊r * 30⌋ + 65

/-- The expression `Math.floor(Math.random() * 25) + 70`: the FastDetectGPT widget value. -/
def fastDetectGPTScore (r : ℚ) : ℤ := ⌊r * 25⌋ + 70

/-- The test `Math.random() > 0.7`, the per-word highlight draw. -/
def shouldHighlight (r : ℚ) : Bool := decide ((7 : ℚ) / 10 < r)

/-- JavaScript `String.prototype.split` with a one-character separator, on the
character list: splitting at every occurrence, keeping empty pieces, and
returning `[""]` on the empty string. -/
def splitChar (sep : Char) : List Char → List (List Char)
  | [] => [[]]
  | c :: rest =>
      if c = sep then [] :: splitChar sep rest
      else
        match splitChar sep rest with
        | [] => [[c]]
        | w :: ws => (c :: w) :: ws

/-- The call `s.split(sep)` for a one-character separator, as used with `'\n'` and
`' '` in the content renderer. -/
def splitOnChar (sep : Char) (s : String) : List String :=
  (splitChar sep s.data).map String.mk

/-- The highlighted-content block: `content.split('\n')`, then each paragraph
`split(' ')`, each word paired with whether the suspect class is applied
(`shouldHighlight && report.is_ai_generated`).  `rand p w` is the
`Math.random()` draw made while rendering word `w` of paragraph `p`. -/
def renderContentWords (content : String) (isAI : Bool) (rand : Nat → Nat → ℚ) :
    List (List (String × Bool)) :=
  (splitOnChar '\n' content).mapIdx fun p para =>
    (splitOnChar ' ' para).mapIdx fun w word =>
      (word, shouldHighlight (rand p w) && isAI)

/-- The report card as rendered: the fields of the loaded-record branch that
the claims are about. -/
structure ReportView where
  badge : String
  confidenceText : ℚ
  barWidthPercent : ℚ
  hash : String
  score1 : ℤ
  score2 : ℤ
  paragraphs : List (List (String × Bool))
deriving Repr, DecidableEq

/-- The three render branches of `ReportDetails`: `loading` guard first, then
the `!report` "Report Not Found" page, then the report card. -/
inductive DetailBody where
  | loadingView
  | notFoundView
  | reportView (v : ReportView)
deriving Repr, DecidableEq

/-- The classification badge / report label. -/
def classificationLabel (r : VerificationData) : String :=
  if r.is_ai_generated then "AI-Generated" else "Human-Written"

/-- The rendered body of `ReportDetails` as a function of the state and of the
`Math.random()` draws made during the render (`r1`, `r2` for the two score
widgets, `rand` for the word highlights).  The confidence bar's CSS width is
`${report.confidence}%` verbatim. -/
def renderDetail (r1 r2 : ℚ) (rand : Nat → Nat → ℚ) (s : DetailState) : DetailBody :=
  if s.loading then .loadingView
  else
    match s.report with
    | none => .notFoundView
    | some rep =>
        .reportView
          { badge := classificationLabel rep
            confidenceText := rep.confidence
            barWidthPercent := rep.confidence
            hash := rep.blockchain_hash
            score1 := detectGPTScore r1
            score2 := fastDetectGPTScore r2
            paragraphs := renderContentWords rep.content rep.is_ai_generated rand }

/-- The `useEffect` body of `ReportDetails`: the fetch runs only when both the
route `id` and the auth `user` are present; otherwise nothing happens (there is
no `else` branch clearing `loading`).  The boolean reports whether a fetch was
issued. -/
def detailEffectStep (id : Option String) (user : Option String)
    (res : SingleFetch) (s : DetailState) : DetailState × DetailEffects × Bool :=
  if id.isSome && user.isSome then
    let out := loadReportDetails res s
    (out.1, out.2, true)
  else (s, noEffects, false)

/-- Replays the effect `n` times from the initial state, fed by an arbitrary
stream of fetch outcomes. -/
def detailRun (id user : Option String) (resSeq : Nat → SingleFetch) : Nat → DetailState
  | 0 => initDetailState
  | n + 1 => (detailEffectStep id user (resSeq n) (detailRun id user resSeq n)).1

/-- The plain-text document synthesized by `downloadReport`.  `fmtDate` stands
for `new Date(·).toLocaleString()` and `fmtNum` for the JavaScript
stringification of the numeric `confidence`. -/
def reportContent (fmtDate : String → String) (fmtNum : ℚ → String)
    (r : VerificationData) : String :=
  "\nScanIt Detailed Verification Report\n==================================\n\nContent Analysis:\n- Content ID: "
    ++ r.id
    ++ "\n- Analysis Date: " ++ fmtDate r.created_at
    ++ "\n- Blockchain Hash: " ++ r.blockchain_hash
    ++ "\n\nResults:\n- Classification: " ++ classificationLabel r
    ++ "\n- Confidence: " ++ fmtNum r.confidence
    ++ "%\n- Content Length: " ++ toString r.content.length
    ++ " characters\n\nContent:\n" ++ r.content ++ "\n\n"

/-- The `a.download` filename set by `downloadReport`. -/
def downloadFilename (r : VerificationData) : String :=
  "scanit-report-" ++ r.id ++ ".txt"

/-- The string `needle` occurs verbatim inside `hay`. -/
def containsStr (hay needle : String) : Prop :=
  ∃ pre post, hay = pre ++ needle ++ post

/-- The width of the confidence bar shown by a rendered body, when one is
shown. -/
def barWidth (b : DetailBody) : Option ℚ :=
  match b with
  | .reportView v => some v.barWidthPercent
  | _ => none

/-- The two detection-score widget values shown by a rendered body, when
shown. -/
def widgetScores (b : DetailBody) : Option (ℤ × ℤ) :=
  match b with
  | .reportView v => some (v.score1, v.score2)
  | _ => none

/-! ### Concrete fixtures (the spec's §8 example records) -/

/-- The record `{id:"a1", created:"2024-01-02"}` of the spec's example. -/
def recA1 : VerificationData :=
  { id := "a1", content := "hello world", is_ai_generated := true, confidence := 87
    blockchain_hash := "0xabc", created_at := "2024-01-02", user_id := "U" }

/-- The record `{id:"a2", created:"2024-01-01"}` of the spec's example. -/
def recA2 : VerificationData :=
  { id := "a2", content := "a b\nc", is_ai_generated := false, confidence := 42
    blockchain_hash := "", created_at := "2024-01-01", user_id := "U" }

/-- A record with out-of-range confidence, for the no-clamping observation. -/
def recOver : VerificationData :=
  { id := "a3", content := "x", is_ai_generated := false, confidence := 150
    blockchain_hash := "0xdef", created_at := "2024-01-03", user_id := "U" }

/-- A concrete stream of per-word draws: word 1 of paragraph 0 draws `4/5`
(above the `0.7` threshold), every other word draws `1/2`. -/
def sampleRand : Nat → Nat → ℚ :=
  fun p w => if p = 0 ∧ w = 1 then 4 / 5 else 1 / 2

/-! ### Claims -/

/-- C1: on a successful fetch, the stored `userBlocks` list is replaced
wholesale by the converted list, whose length equals the fetched list's and
whose `i`-th element takes its `id` and `timestamp` from the `i`-th record:
a 1:1, order-preserving projection with no omission or duplication. -/
theorem blocks_projection (fabricate : Nat → String)
    (data : List VerificationData) (s : ExplorerState) :
    (loadUserVerifications fabricate (.ok data) s).1.userBlocks
        = loadedBlocks fabricate data ∧
    (loadedBlocks fabricate data).length = data.length ∧
    ∀ i (h : i < data.length) (h2 : i < (loadedBlocks fabricate data).length),
      ((loadedBlocks fabricate data).get ⟨i, h2⟩).id = (data.get ⟨i, h⟩).id ∧
      ((loadedBlocks fabricate data).get ⟨i, h2⟩).timestamp
          = (data.get ⟨i, h⟩).created_at := by
  refine ⟨rfl, by simp [loadedBlocks], ?_⟩
  intro i h h2
  rw [show ((loadedBlocks fabricate data).get ⟨i, h2⟩)
        = toBlock fabricate i (data.get ⟨i, h⟩) from List.get_mapIdx data _ i h]
  exact ⟨rfl, rfl⟩

/-- Witness for C1 at the spec's two-record example. -/
theorem blocks_projection_witness :
    ((loadedBlocks (fun _ => "cafe") [recA1, recA2]).get ⟨1, by decide⟩).id = "a2" ∧
    ((loadedBlocks (fun _ => "cafe") [recA1, recA2]).get ⟨1, by decide⟩).timestamp
        = "2024-01-01" := by
  have h := (blocks_projection (fun _ => "cafe") [recA1, recA2]
      initExplorerState).2.2 1 (by decide) (by decide)
  simpa [recA2] using h

/-- C2: the verifier label of the block at 0-indexed position `i` is
`rotation[i % 3]` for the fixed rotation of three node names. -/
theorem verifier_rotation (fabricate : Nat → String)
    (data : List VerificationData) (i : Nat)
    (h2 : i < (loadedBlocks fabricate data).length) (h : i < data.length)
    (h3 : i % 3 < rotation.length) :
    ((loadedBlocks fabricate data).get ⟨i, h2⟩).verifier
        = rotation.get ⟨i % 3, h3⟩ := by
  rw [show ((loadedBlocks fabricate data).get ⟨i, h2⟩)
        = toBlock fabricate i (data.get ⟨i, h⟩) from List.get_mapIdx data _ i h]
  show verifierLabel i = rotation.get ⟨i % 3, h3⟩
  have hcases : i % 3 = 0 ∨ i % 3 = 1 ∨ i % 3 = 2 := by omega
  rcases hcases with hc | hc | hc <;> simp [verifierLabel, rotation, hc]

/-- Witness for C2: on the spec's example list the two labels are
`rotation[0]` and `rotation[1]` in list order. -/
theorem verifier_rotation_witness :
    ((loadedBlocks (fun _ => "cafe") [recA1, recA2]).get ⟨0, by decide⟩).verifier
        = rotation.get ⟨0, by decide⟩ ∧
    ((loadedBlocks (fun _ => "cafe") [recA1, recA2]).get ⟨1, by decide⟩).verifier
        = rotation.get ⟨1, by decide⟩ := by
  exact ⟨verifier_rotation (fun _ => "cafe") [recA1, recA2] 0 (by decide)
            (by decide) (by decide),
         verifier_rotation (fun _ => "cafe") [recA1, recA2] 1 (by decide)
            (by decide) (by decide)⟩

/-- C4: a failed list fetch logs the error and leaves the stored block list
untouched — hence empty on the on-mount fetch from the initial state — and the
resulting render equals that of a successful fetch of zero records, for every
auth state: no user-facing error banner. -/
theorem list_failure_silent (fabricate : Nat → String) (e : String) :
    (∀ s : ExplorerState,
        (loadUserVerifications fabricate (.err e) s).1.userBlocks = s.userBlocks) ∧
    (loadUserVerifications fabricate (.err e) initExplorerState).1.userBlocks = [] ∧
    (loadUserVerifications fabricate (.err e) initExplorerState).2
        = [.consoleError "Error loading verifications:" e] ∧
    ∀ user : Option String,
      renderExplorer user (loadUserVerifications fabricate (.err e) initExplorerState).1
        = renderExplorer user
            (loadUserVerifications fabricate (.ok []) initExplorerState).1 := by
  refine ⟨fun s => rfl, rfl, rfl, ?_⟩
  intro user
  simp [loadUserVerifications, loadedBlocks, initExplorerState]

/-- C8: the rendered explorer body is invariant under the search term — the
two-run noninterference statement over the search input. -/
theorem search_noninterference (user : Option String) (t1 t2 : String)
    (sel : Option Block) (blocks : List Block) (ld : Bool) :
    renderExplorer user
        { searchTerm := t1, selectedBlock := sel, userBlocks := blocks, loading := ld }
      = renderExplorer user
          { searchTerm := t2, selectedBlock := sel, userBlocks := blocks, loading := ld } :=
  rfl

/-- Reading position `i` of a `mapIdx` image, `Option`-valued. -/
theorem getElem_opt_mapIdx {α β : Type} (l : List α) (f : ℕ → α → β) (i : ℕ) :
    (l.mapIdx f)[i]? = (l[i]?).map (f i) := by
  simp [List.mapIdx_eq_enum_map, List.getElem?_enum]
  cases l[i]? <;> simp [Function.uncurry]

/-- Occurrence is preserved by appending on the right. -/
theorem containsStr_appendL {hay n : String} (b : String) (h : containsStr hay n) :
    containsStr (hay ++ b) n := by
  obtain ⟨pre, post, rfl⟩ := h
  exact ⟨pre, post ++ b, by simp [String.append_assoc]⟩

/-- Occurrence is preserved by appending on the left. -/
theorem containsStr_appendR (a : String) {hay n : String} (h : containsStr hay n) :
    containsStr (a ++ hay) n := by
  obtain ⟨pre, post, rfl⟩ := h
  exact ⟨a ++ pre, post, by simp [String.append_assoc]⟩

/-- A string occurs in itself. -/
theorem containsStr_self (n : String) : containsStr n n :=
  ⟨"", "", by simp⟩

/-- C3: every error outcome of the detail fetch — the zero-rows
"not found / access denied" error included — is handled identically: the same
state update, the same destructive toast, the same `navigate('/reports')`, a
log of the error; no record is stored, so starting from the initial state the
view never renders record fields and shows no message specific to not-found. -/
theorem notfound_eq_fetch_error (e : SupabaseError) (s : DetailState) :
    (loadReportDetails (.err noRowsError) s).1 = (loadReportDetails (.err e) s).1 ∧
    (loadReportDetails (.err noRowsError) s).2.toasts
        = (loadReportDetails (.err e) s).2.toasts ∧
    (loadReportDetails (.err noRowsError) s).2.nav
        = (loadReportDetails (.err e) s).2.nav ∧
    (loadReportDetails (.err noRowsError) s).2.toasts = [failedToast] ∧
    (loadReportDetails (.err noRowsError) s).2.nav = some "/reports" ∧
    (∃ payload, (loadReportDetails (.err noRowsError) s).2.logs
        = [LogEvent.consoleError "Error loading report:" payload]) ∧
    (loadReportDetails (.err noRowsError) s).1.report = s.report ∧
    ∀ (r1 r2 : ℚ) (rand : Nat → Nat → ℚ) (v : ReportView),
      renderDetail r1 r2 rand (loadReportDetails (.err noRowsError) initDetailState).1
        ≠ DetailBody.reportView v := by
  refine ⟨rfl, rfl, rfl, rfl, rfl, ⟨_, rfl⟩, rfl, ?_⟩
  intro r1 r2 rand v
  simp [loadReportDetails, renderDetail, initDetailState]

/-- Witness for C3: concrete effects of the zero-rows outcome from the initial
state, and the absence of any rendered record card afterwards. -/
theorem notfound_eq_fetch_error_witness :
    (loadReportDetails (.err noRowsError) initDetailState).2.toasts = [failedToast] ∧
    (loadReportDetails (.err noRowsError) initDetailState).2.nav = some "/reports" ∧
    renderDetail 0 0 sampleRand
        (loadReportDetails (.err noRowsError) initDetailState).1
      ≠ DetailBody.reportView
          { badge := "", confidenceText := 0, barWidthPercent := 0, hash := ""
            score1 := 0, score2 := 0, paragraphs := [] } := by
  have h := notfound_eq_fetch_error { code := "500", message := "network failure" }
      initDetailState
  exact ⟨h.2.2.2.1, h.2.2.2.2.1, h.2.2.2.2.2.2.2 0 0 sampleRand _⟩

/-- C5: the downloaded document carries the filename
`scanit-report-{id}.txt` and contains, verbatim, the record's id, its
formatted creation timestamp, its integrity tag, its classification label,
its stringified confidence, its content length, and its full content. -/
theorem download_report_fields (fmtDate : String → String) (fmtNum : ℚ → String)
    (r : VerificationData) :
    downloadFilename r = "scanit-report-" ++ r.id ++ ".txt" ∧
    containsStr (reportContent fmtDate fmtNum r) r.id ∧
    containsStr (reportContent fmtDate fmtNum r) (fmtDate r.created_at) ∧
    containsStr (reportContent fmtDate fmtNum r) r.blockchain_hash ∧
    containsStr (reportContent fmtDate fmtNum r) (classificationLabel r) ∧
    containsStr (reportContent fmtDate fmtNum r) (fmtNum r.confidence) ∧
    containsStr (reportContent fmtDate fmtNum r) (toString r.content.length) ∧
    containsStr (reportContent fmtDate fmtNum r) r.content := by
  refine ⟨rfl, ?_, ?_, ?_, ?_, ?_, ?_, ?_⟩ <;> unfold reportContent
  · exact containsStr_appendL _ <| containsStr_appendL _ <| containsStr_appendL _ <|
      containsStr_appendL _ <| containsStr_appendL _ <| containsStr_appendL _ <|
      containsStr_appendL _ <| containsStr_appendL _ <| containsStr_appendL _ <|
      containsStr_appendL _ <| containsStr_appendL _ <| containsStr_appendL _ <|
      containsStr_appendL _ <| containsStr_appendR _ <| containsStr_self _
  · exact containsStr_appendL _ <| containsStr_appendL _ <| containsStr_appendL _ <|
      containsStr_appendL _ <| containsStr_appendL _ <| containsStr_appendL _ <|
      containsStr_appendL _ <| containsStr_appendL _ <| containsStr_appendL _ <|
      containsStr_appendL _ <| containsStr_appendL _ <|
      containsStr_appendR _ <| containsStr_self _
  · exact containsStr_appendL _ <| containsStr_appendL _ <| containsStr_appendL _ <|
      containsStr_appendL _ <| containsStr_appendL _ <| containsStr_appendL _ <|
      containsStr_appendL _ <| containsStr_appendL _ <| containsStr_appendL _ <|
      containsStr_appendR _ <| containsStr_self _
  · exact containsStr_appendL _ <| containsStr_appendL _ <| containsStr_appendL _ <|
      containsStr_appendL _ <| containsStr_appendL _ <| containsStr_appendL _ <|
      containsStr_appendL _ <| containsStr_appendR _ <| containsStr_self _
  · exact containsStr_appendL _ <| containsStr_appendL _ <| containsStr_appendL _ <|
      containsStr_appendL _ <| containsStr_appendL _ <|
      containsStr_appendR _ <| containsStr_self _
  · exact containsStr_appendL _ <| containsStr_appendL _ <| containsStr_appendL _ <|
      containsStr_appendR _ <| containsStr_self _
  · exact containsStr_appendL _ <| containsStr_appendR _ <| containsStr_self _

/-- C6: the confidence bar width rendered for a loaded record is the linear
function `1 · confidence + 0` of the confidence field, hence monotone on any
pair of records, and values above 100 pass through without clamping. -/
theorem confidence_bar_linear (r1 r2 : ℚ) (rand : Nat → Nat → ℚ) :
    (∃ a b : ℚ, 0 < a ∧ ∀ rep : VerificationData,
        barWidth (renderDetail r1 r2 rand ⟨some rep, false⟩)
          = some (a * rep.confidence + b)) ∧
    (∀ repA repB : VerificationData, repA.confidence ≤ repB.confidence →
        (barWidth (renderDetail r1 r2 rand ⟨some repA, false⟩)).getD 0
          ≤ (barWidth (renderDetail r1 r2 rand ⟨some repB, false⟩)).getD 0) ∧
    (∀ rep : VerificationData, 100 < rep.confidence →
        100 < (barWidth (renderDetail r1 r2 rand ⟨some rep, false⟩)).getD 0) := by
  refine ⟨⟨1, 0, one_pos, ?_⟩, ?_, ?_⟩
  · intro rep
    simp [renderDetail, barWidth]
  · intro repA repB h
    simpa [renderDetail, barWidth] using h
  · intro rep h
    simpa [renderDetail, barWidth] using h

/-- Witness for C6 on the concrete fixtures, including the out-of-range one. -/
theorem confidence_bar_linear_witness :
    (barWidth (renderDetail 0 0 sampleRand ⟨some recA2, false⟩)).getD 0
        ≤ (barWidth (renderDetail 0 0 sampleRand ⟨some recA1, false⟩)).getD 0 ∧
    100 < (barWidth (renderDetail 0 0 sampleRand ⟨some recOver, false⟩)).getD 0 := by
  exact ⟨(confidence_bar_linear 0 0 sampleRand).2.1 recA2 recA1
            (by norm_num [recA2, recA1]),
         (confidence_bar_linear 0 0 sampleRand).2.2 recOver (by norm_num [recOver])⟩

/-- C7 counterexample: neither widget can ever show 95: the draws are
`floor(random * 30) + 65` and `floor(random * 25) + 70` with `random < 1`, so
the values stop at 94. -/
theorem detect_scores_never_95 :
    (¬ ∃ r : ℚ, 0 ≤ r ∧ r < 1 ∧ detectGPTScore r = 95) ∧
    (¬ ∃ r : ℚ, 0 ≤ r ∧ r < 1 ∧ fastDetectGPTScore r = 95) := by
  constructor
  · rintro ⟨r, -, h1, he⟩
    have hf : (⌊r * 30⌋ : ℤ) < 30 := Int.floor_lt.2 (by push_cast; nlinarith)
    simp only [detectGPTScore] at he
    omega
  · rintro ⟨r, -, h1, he⟩
    have hf : (⌊r * 25⌋ : ℤ) < 25 := Int.floor_lt.2 (by push_cast; nlinarith)
    simp only [fastDetectGPTScore] at he
    omega

/-- C7 (amended): on a draw in `[0, 1)` the first widget's value lies in
`[65, 94]` and the second's in `[70, 94]`, every integer of those ranges is
attainable, and the rendered scores do not depend on the record's fields. -/
theorem detect_scores_amended (r : ℚ) (h0 : 0 ≤ r) (h1 : r < 1) :
    (65 ≤ detectGPTScore r ∧ detectGPTScore r ≤ 94) ∧
    (70 ≤ fastDetectGPTScore r ∧ fastDetectGPTScore r ≤ 94) ∧
    (∀ v : ℤ, 65 ≤ v → v ≤ 94 →
        ∃ q : ℚ, 0 ≤ q ∧ q < 1 ∧ detectGPTScore q = v) ∧
    (∀ v : ℤ, 70 ≤ v → v ≤ 94 →
        ∃ q : ℚ, 0 ≤ q ∧ q < 1 ∧ fastDetectGPTScore q = v) ∧
    (∀ (rB : ℚ) (rand : Nat → Nat → ℚ) (repA repB : VerificationData),
        widgetScores (renderDetail r rB rand ⟨some repA, false⟩)
          = widgetScores (renderDetail r rB rand ⟨some repB, false⟩)) := by
  refine ⟨⟨?_, ?_⟩, ⟨?_, ?_⟩, ?_, ?_, ?_⟩
  · have hf : (0 : ℤ) ≤ ⌊r * 30⌋ := Int.floor_nonneg.2 (by positivity)
    simp only [detectGPTScore]
    omega
  · have hf : (⌊r * 30⌋ : ℤ) < 30 := Int.floor_lt.2 (by push_cast; nlinarith)
    simp only [detectGPTScore]
    omega
  · have hf : (0 : ℤ) ≤ ⌊r * 25⌋ := Int.floor_nonneg.2 (by positivity)
    simp only [fastDetectGPTScore]
    omega
  · have hf : (⌊r * 25⌋ : ℤ) < 25 := Int.floor_lt.2 (by push_cast; nlinarith)
    simp only [fastDetectGPTScore]
    omega
  · intro v hv1 hv2
    have h65 : (65 : ℚ) ≤ (v : ℚ) := by exact_mod_cast hv1
    have h94 : (v : ℚ) ≤ 94 := by exact_mod_cast hv2
    refine ⟨((v : ℚ) - 65) / 30, div_nonneg (by linarith) (by norm_num),
        (div_lt_one (by norm_num)).2 (by linarith), ?_⟩
    simp only [detectGPTScore]
    rw [div_mul_cancel₀ _ (by norm_num : (30 : ℚ) ≠ 0),
        show ((v : ℚ) - 65) = ((v - 65 : ℤ) : ℚ) by push_cast; ring,
        Int.floor_intCast]
    ring
  · intro v hv1 hv2
    have h70 : (70 : ℚ) ≤ (v : ℚ) := by exact_mod_cast hv1
    have h94 : (v : ℚ) ≤ 94 := by exact_mod_cast hv2
    refine ⟨((v : ℚ) - 70) / 25, div_nonneg (by linarith) (by norm_num),
        (div_lt_one (by norm_num)).2 (by linarith), ?_⟩
    simp only [fastDetectGPTScore]
    rw [div_mul_cancel₀ _ (by norm_num : (25 : ℚ) ≠ 0),
        show ((v : ℚ) - 70) = ((v - 70 : ℤ) : ℚ) by push_cast; ring,
        Int.floor_intCast]
    ring
  · intro rB rand repA repB
    simp [renderDetail, widgetScores]

/-- Witness for the amended C7 at the draw `1/2`. -/
theorem detect_scores_amended_witness :
    (65 ≤ detectGPTScore (1 / 2) ∧ detectGPTScore (1 / 2) ≤ 94) ∧
    (70 ≤ fastDetectGPTScore (1 / 2) ∧ fastDetectGPTScore (1 / 2) ≤ 94) := by
  have h := detect_scores_amended (1 / 2) (by norm_num) (by norm_num)
  exact ⟨h.1, h.2.1⟩

/-- C9: with a human-produced classification no word is ever marked; with a
machine-produced one the word at position `w` of paragraph `p` is exactly the
`(p, w)`-th word of the newline/space split, marked iff its own draw exceeds
`0.7`; and a draw in `[0, 1)` marks precisely on the interval `(7/10, 1)`,
whose length is `3/10`. -/
theorem highlight_ai_only (content : String) (rand : Nat → Nat → ℚ) :
    (∀ (p w : Nat) (para : List (String × Bool)) (pw : String × Bool),
        (renderContentWords content false rand)[p]? = some para →
        para[w]? = some pw → pw.2 = false) ∧
    (∀ p w : Nat,
        ((renderContentWords content true rand)[p]?.bind fun para => para[w]?)
          = (((splitOnChar '\n' content)[p]?.map fun para =>
                splitOnChar ' ' para).bind
              fun ws => ws[w]?.map fun word => (word, shouldHighlight (rand p w)))) ∧
    (∀ q : ℚ, 0 ≤ q → q < 1 →
        (shouldHighlight q = true ↔ q ∈ Set.Ioo ((7 : ℚ) / 10) 1)) ∧
    (1 : ℚ) - 7 / 10 = 3 / 10 := by
  refine ⟨?_, ?_, ?_, by norm_num⟩
  · intro p w para pw h1 h2
    rw [renderContentWords, getElem_opt_mapIdx] at h1
    obtain ⟨para0, hp0, rfl⟩ := Option.map_eq_some'.1 h1
    rw [getElem_opt_mapIdx] at h2
    obtain ⟨word, hw0, rfl⟩ := Option.map_eq_some'.1 h2
    simp
  · intro p w
    rw [renderContentWords, getElem_opt_mapIdx]
    cases hsp : (splitOnChar '\n' content)[p]? with
    | none => simp
    | some para =>
        simp only [Option.map_some', Option.some_bind, getElem_opt_mapIdx]
        cases (splitOnChar ' ' para)[w]? <;> simp
  · intro q h0 h1
    simp [shouldHighlight, Set.mem_Ioo, h1]

/-- Witness for C9 on `"a b\nc"` with the sample draws: word 1 of paragraph 0
draws `4/5 > 0.7` and is marked when the record is machine-produced, while
under the human-produced classification the corresponding mark is false. -/
theorem highlight_ai_only_witness :
    (((renderContentWords "a b\nc" true sampleRand)[0]?.bind fun para => para[1]?)
        = some ("b", true)) ∧
    (("a", false) : String × Bool).2 = false := by
  have h := highlight_ai_only "a b\nc" sampleRand
  have hsh1 : shouldHighlight (sampleRand 0 1) = true := by
    have : sampleRand 0 1 = 4 / 5 := by simp [sampleRand]
    rw [this, shouldHighlight, decide_eq_true_eq]
    norm_num
  have hsh0 : shouldHighlight (sampleRand 0 0) = false := by
    have : sampleRand 0 0 = 1 / 2 := by simp [sampleRand]
    rw [this, shouldHighlight, decide_eq_false_iff_not]
    norm_num
  constructor
  · rw [h.2.1 0 1]
    simp only [hsh1]
    decide
  · refine h.1 0 0 [("a", false), ("b", false)] ("a", false) ?_ (by decide)
    rw [renderContentWords, getElem_opt_mapIdx]
    simp only [Bool.and_false]
    decide

/-- C10: when the route id or the authenticated user is absent, the effect
guard never fires: however many times the effect is replayed, no fetch is
issued, no effect is emitted, the state stays at its initial value with the
loading flag true, and the loading placeholder is what renders. -/
theorem missing_params_stay_loading (id user : Option String)
    (h : id = none ∨ user = none) (resSeq : Nat → SingleFetch) (n : Nat)
    (r1 r2 : ℚ) (rand : Nat → Nat → ℚ) :
    detailRun id user resSeq n = initDetailState ∧
    (detailRun id user resSeq n).loading = true ∧
    (detailEffectStep id user (resSeq n) (detailRun id user resSeq n)).2
        = (noEffects, false) ∧
    renderDetail r1 r2 rand (detailRun id user resSeq n) = .loadingView := by
  have hguard : (id.isSome && user.isSome) = false := by
    rcases h with h | h <;> simp [h]
  have hrun : ∀ m, detailRun id user resSeq m = initDetailState := by
    intro m
    induction m with
    | zero => rfl
    | succ k ih => simp [detailRun, detailEffectStep, hguard, ih]
  refine ⟨hrun n, by rw [hrun n]; rfl, ?_, by rw [hrun n]; rfl⟩
  simp [detailEffectStep, hguard]

/-- Witness for C10: three replays with an absent route id leave the loading
placeholder up and emit nothing. -/
theorem missing_params_stay_loading_witness :
    detailRun none (some "user-1") (fun _ => .err noRowsError) 3 = initDetailState ∧
    (detailEffectStep none (some "user-1") (SingleFetch.err noRowsError)
        (detailRun none (some "user-1") (fun _ => .err noRowsError) 3)).2
        = (noEffects, false) ∧
    renderDetail 0 0 sampleRand
        (detailRun none (some "user-1") (fun _ => .err noRowsError) 3)
      = .loadingView := by
  have h := missing_params_stay_loading none (some "user-1") (Or.inl rfl)
      (fun _ => .err noRowsError) 3 0 0 sampleRand
  exact ⟨h.1, h.2.2.1, h.2.2.2⟩

